import Mathlib

/-!
Verification of the RAG document Q&A backend (src/backend/server.py).

This file gives a shallow embedding of the server's core logic:
token verification and logout, the per-user in-memory RAG session,
the upload (ingestion) endpoint, and the three retrieval strategies
(basic, multi-query, HyDE) together with the ask endpoint.

External collaborators (text extraction, the LangChain splitter, the
Chroma vector index, the OpenAI chat model, the SQLite row id
generator) are passed in as explicit function parameters, mirroring
the points where the Python code calls out of the core.  Everything
else is translated statement by statement from the source.
-/

/-- A LangChain `Document`: `page_content` plus the metadata dictionary
written by the server, which always holds the keys `source` and `type`. -/
structure Document where
  page_content : String
  meta_source : String
  meta_type : String
deriving DecidableEq

/-- A FastAPI `HTTPException`: status code and human-readable detail. -/
structure HTTPError where
  status_code : Nat
  detail : String
deriving DecidableEq

/-- A row of the `users` table. -/
structure UserRec where
  id : Nat
  username : String
  email : String
  password_hash : String
deriving DecidableEq

/-- A row of the `sessions` table (an issued token). Time is modelled
as a natural number; `expires_at` is the expiry instant. -/
structure SessionRec where
  user_id : Nat
  token : String
  expires_at : Nat
deriving DecidableEq

/-- A row of the `conversations` table (`created_at` omitted: no claim
in scope depends on it). -/
structure ConversationRec where
  user_id : Nat
  document_id : Nat
  question : String
  answer : String
  rag_type : String
deriving DecidableEq

/-- The SQLite database state, restricted to the tables the claims
touch (the `documents` table is reached only through the opaque
`persist_doc` collaborator of `upload_document`). -/
structure DB where
  users : List UserRec
  sessions : List SessionRec
  conversations : List ConversationRec
deriving DecidableEq

/-- The dictionary returned by `verify_token` on success. -/
structure UserInfo where
  user_id : Nat
  username : String
  email : String
deriving DecidableEq

/-- The row produced by `verify_token`'s SQL query: sessions matching
the token and not yet expired (`expires_at > now`), joined with their
owning user; `fetchone` takes the first such row. -/
def token_row (db : DB) (t : String) (now : Nat) : Option (UserRec × SessionRec) :=
  (((db.sessions.filter (fun s => decide (s.token = t ∧ now < s.expires_at))).filterMap
    (fun s => (db.users.find? (fun u => decide (u.id = s.user_id))).map (fun u => (u, s))))).head?

/-- `verify_token` from server.py: rejects a missing (or empty, since
Python `if not token` also catches `""`) header with 401, otherwise
looks the token up filtering on expiry.  The Python handler only runs
a SELECT, so the embedding is a pure function of the database. -/
def verify_token (token : Option String) (db : DB) (now : Nat) :
    Except HTTPError UserInfo :=
  match token with
  | none => Except.error ⟨401, "Token không được cung cấp"⟩
  | some t =>
    if t = "" then Except.error ⟨401, "Token không được cung cấp"⟩
    else
      match token_row db t now with
      | none => Except.error ⟨401, "Token không hợp lệ hoặc đã hết hạn"⟩
      | some (u, _) => Except.ok ⟨u.id, u.username, u.email⟩

/-- The `verify_token` dependency viewed as a call on the store: it
performs a SELECT and closes the connection, returning the database
unchanged. -/
def verify_token_call (token : Option String) (db : DB) (now : Nat) :
    Except HTTPError UserInfo × DB :=
  (verify_token token db now, db)

/-- The `/auth/logout` endpoint: FastAPI first runs the
`verify_token` dependency (so an invalid token never reaches the
handler), then the handler executes
`DELETE FROM sessions WHERE token = ?`. -/
def logout (token : Option String) (db : DB) (now : Nat) :
    Except HTTPError String × DB :=
  match verify_token token db now with
  | Except.error e => (Except.error e, db)
  | Except.ok _ =>
    (Except.ok "Đăng xuất thành công",
     { db with sessions := db.sessions.filter (fun s => decide (¬ s.token = token.getD "")) })

/-- The in-memory `UserSession` object (the `llm` field is an opaque
client handle, omitted; `vectorstore` and `retriever` are opaque
handles modelled as numbers). -/
structure UserSession where
  user_id : Nat
  documents : List Document
  source_name : Option String
  source_type : Option String
  vectorstore : Option Nat
  retriever : Option Nat
  document_id : Option Nat
deriving DecidableEq

/-- `UserSession.__init__`: the empty session. -/
def UserSession.init (user_id : Nat) : UserSession :=
  ⟨user_id, [], none, none, none, none, none⟩

/-- `UserSession.clear`: reset every corpus field to its empty value. -/
def UserSession.clear (s : UserSession) : UserSession :=
  { s with documents := [], source_name := none, source_type := none,
           vectorstore := none, retriever := none, document_id := none }

/-- An uploaded file: filename plus raw byte content (bytes modelled
as a string). -/
structure FileInput where
  filename : String
  content : String
deriving DecidableEq

/-- The JSON body returned by a successful `/upload`. -/
structure UploadResult where
  source : String
  source_type : String
  content_length : Nat
  chunks : Nat
  word_count : Nat
deriving DecidableEq

/-- Python `len(text.split())`: whitespace-delimited token count. -/
def word_count (text : String) : Nat :=
  ((text.split (fun c => c.isWhitespace)).filter (fun w => decide (w ≠ ""))).length

/-- The `elif url:` arm of `/upload`: an empty or missing URL falls to
`raise HTTPException(400, "Provide either file or URL")`; otherwise the
URL is fetched (`extract_text_from_url`, which returns text and page
title and raises a 400 `HTTPException` on any failure). -/
def resolve_url (extract_url : String → Except HTTPError (String × String))
    (url : Option String) : Except HTTPError (String × String × String) :=
  match url with
  | some u =>
    if u = "" then Except.error ⟨400, "Provide either file or URL"⟩
    else
      match extract_url u with
      | Except.error e => Except.error e
      | Except.ok (text, title) => Except.ok (text, title, "url")
  | none => Except.error ⟨400, "Provide either file or URL"⟩

/-- The input-selection prefix of `/upload` (`if file and
file.filename: ... elif url: ... else: raise 400`), producing the
extracted text, source name and source kind.  A present file with a
non-empty filename is read (`Empty file` on zero bytes) and passed to
`extract_text_from_file`, which raises a 400 `HTTPException` on
failure; the inner `if not file.filename` re-check in the source is
unreachable and is not modelled.  A missing or falsy file falls to the
URL arm. -/
def resolve_input (extract_file : FileInput → Except HTTPError String)
    (extract_url : String → Except HTTPError (String × String))
    (file : Option FileInput) (url : Option String) :
    Except HTTPError (String × String × String) :=
  match file with
  | some f =>
    if f.filename = "" then resolve_url extract_url url
    else if f.content = "" then Except.error ⟨400, "Empty file"⟩
    else
      match extract_file f with
      | Except.error e => Except.error e
      | Except.ok text => Except.ok (text, f.filename, "file")
  | none => resolve_url extract_url url

/-- Python truthiness of the `file` parameter combined with
`file.filename` (`if file and file.filename:`). -/
def file_truthy : Option FileInput → Bool
  | none => false
  | some f => decide (f.filename ≠ "")

/-- Python truthiness of the `url` form field (`elif url:`). -/
def url_truthy : Option String → Bool
  | none => false
  | some u => decide (u ≠ "")

/-- The `/upload` endpoint.  `split` is the
`RecursiveCharacterTextSplitter` collaborator, `index` is
`Chroma.from_documents` (returning an opaque vectorstore handle or
raising, modelled as an error message that the endpoint wraps into the
500 `Processing failed: ...` response), and `persist_doc` is the
`INSERT INTO documents` statement returning `lastrowid`.  The session
is mutated exactly where the Python assigns its fields: documents,
source name and source kind are written before indexing; vectorstore
and retriever after indexing; document id after persistence. -/
def upload_document
    (extract_file : FileInput → Except HTTPError String)
    (extract_url : String → Except HTTPError (String × String))
    (split : Document → List Document)
    (index : List Document → Except String Nat)
    (persist_doc : Nat → String → Nat → Nat → Nat → String → Except String Nat)
    (user_id : Nat)
    (file : Option FileInput) (url : Option String)
    (session : UserSession) :
    Except HTTPError UploadResult × UserSession :=
  match resolve_input extract_file extract_url file url with
  | Except.error e => (Except.error e, session)
  | Except.ok (text, source_name, source_type) =>
    if text.length < 50 then
      (Except.error ⟨400, "Content too short (less than 50 characters)."⟩, session)
    else
      let doc : Document := ⟨text, source_name, source_type⟩
      let session1 : UserSession :=
        { session with documents := [doc], source_name := some source_name,
                       source_type := some source_type }
      let splits := split doc
      match index splits with
      | Except.error e => (Except.error ⟨500, "Processing failed: " ++ e⟩, session1)
      | Except.ok vs =>
        let session2 : UserSession :=
          { session1 with vectorstore := some vs, retriever := some vs }
        match persist_doc user_id source_name text.utf8ByteSize splits.length
                (word_count text) source_type with
        | Except.error e => (Except.error ⟨500, "Processing failed: " ++ e⟩, session2)
        | Except.ok row_id =>
          (Except.ok ⟨source_name, source_type, text.length, splits.length, word_count text⟩,
           { session2 with document_id := some row_id })

/-- `format_docs`: join the chunks' text with a blank-line separator. -/
def format_docs (docs : List Document) : String :=
  String.intercalate "\n\n" (docs.map Document.page_content)

/-- The `BasicRAG` prompt template, rendered with its two variables
substituted. -/
def basic_prompt (context question : String) : String :=
  "Bạn là trợ lý AI thông minh. Hãy trả lời câu hỏi dựa trên ngữ cảnh sau:\n\nNGỮ CẢNH:\n"
    ++ context ++ "\n\nCÂU HỎI: " ++ question
    ++ "\n\nHãy trả lời chính xác, chi tiết bằng tiếng Việt. Nếu không tìm thấy thông tin trong ngữ cảnh, hãy nói rõ."

/-- The `MultiQueryRAG` query-generation prompt, rendered. -/
def multi_query_prompt (question : String) : String :=
  "Bạn là AI assistant. Hãy tạo 3 câu hỏi khác nhau \ntừ câu hỏi gốc để tìm kiếm tài liệu tốt hơn. Mỗi câu hỏi trên một dòng.\n\nCâu hỏi gốc: "
    ++ question

/-- The `MultiQueryRAG` answer prompt, rendered. -/
def mq_answer_prompt (context question : String) : String :=
  "Trả lời câu hỏi dựa trên ngữ cảnh:\n\n" ++ context
    ++ "\n\nCâu hỏi: " ++ question ++ "\nTrả lời:"

/-- The `HyDERAG` hypothetical-passage prompt, rendered. -/
def hyde_prompt (question : String) : String :=
  "Hãy viết một đoạn văn giả định trả lời câu hỏi sau:\n\nCâu hỏi: " ++ question ++ "\nĐoạn văn:"

/-- The `HyDERAG` answer prompt, rendered. -/
def hyde_answer_prompt (context question : String) : String :=
  "Dựa trên ngữ cảnh sau, trả lời câu hỏi:\n\n" ++ context
    ++ "\n\nCâu hỏi: " ++ question ++ "\nTrả lời:"

/-- The query parser of `MultiQueryRAG.generate_queries`:
`[q.strip() for q in x.split("\n") if q.strip()]`. -/
def parse_queries (x : String) : List String :=
  ((x.splitOn "\n").map String.trim).filter (fun q => decide (q ≠ ""))

/-- A single assignment `d[k] = v` on a Python `dict` modelled as an
insertion-ordered association list: an existing key keeps its position
and has its value overwritten; a new key is appended at the end. -/
def dict_insert (m : List (String × Document)) (k : String) (v : Document) :
    List (String × Document) :=
  if m.any (fun p => decide (p.1 = k)) then
    m.map (fun p => if p.1 = k then (k, v) else p)
  else m ++ [(k, v)]

/-- `get_unique_docs` from `MultiQueryRAG.build_chain`: fill a dict
keyed by `page_content` across all per-query result lists and return
`list(unique.values())`. -/
def get_unique_docs (doc_lists : List (List Document)) : List Document :=
  ((doc_lists.flatten).foldl (fun m doc => dict_insert m doc.page_content doc) []).map Prod.snd

/-- `retrieve_all` from `MultiQueryRAG.build_chain`: retrieve each
query's documents, logging and skipping any query whose retrieval
raises. -/
def retrieve_all (retrieve : String → Except String (List Document)) :
    List String → List (List Document)
  | [] => []
  | q :: qs =>
    match retrieve q with
    | Except.ok docs => docs :: retrieve_all retrieve qs
    | Except.error _ => retrieve_all retrieve qs

/-- The `BasicRAG` chain: top-k retrieval on the question, context
formatting, one generation call.  `retrieve` is the session retriever
(`get_relevant_documents`), `llm` the chat model on a rendered prompt;
either collaborator may raise, modelled as `Except.error`. -/
def basic_chain (retrieve : String → Except String (List Document))
    (llm : String → Except String String) (question : String) : Except String String :=
  match retrieve question with
  | Except.error e => Except.error e
  | Except.ok docs => llm (basic_prompt (format_docs docs) question)

/-- The `MultiQueryRAG` full chain: generate paraphrased queries (a
generation failure propagates), retrieve per query with failures
skipped, merge by `get_unique_docs`, and generate the answer. -/
def multi_query_full_chain (retrieve : String → Except String (List Document))
    (llm : String → Except String String) (question : String) : Except String String :=
  match llm (multi_query_prompt question) with
  | Except.error e => Except.error e
  | Except.ok generated =>
    llm (mq_answer_prompt
      (format_docs (get_unique_docs (retrieve_all retrieve (parse_queries generated))))
      question)

/-- The `HyDERAG` full chain: generate a hypothetical passage, use it
(not the question) as the retrieval query, then answer; every failure
propagates. -/
def hyde_full_chain (retrieve : String → Except String (List Document))
    (llm : String → Except String String) (question : String) : Except String String :=
  match llm (hyde_prompt question) with
  | Except.error e => Except.error e
  | Except.ok hypothetical =>
    match retrieve hypothetical with
    | Except.error e => Except.error e
    | Except.ok docs => llm (hyde_answer_prompt (format_docs docs) question)

/-- The strategy dispatch of `/ask`:
`if rag_type == "multi_query" ... elif rag_type == "hyde" ... else basic`. -/
def dispatch_chain (retrieve : String → Except String (List Document))
    (llm : String → Except String String) (rag_type question : String) :
    Except String String :=
  if rag_type = "multi_query" then multi_query_full_chain retrieve llm question
  else if rag_type = "hyde" then hyde_full_chain retrieve llm question
  else basic_chain retrieve llm question

/-- The JSON body of a successful `/ask`. -/
structure AnswerResponse where
  answer : String
  sources : List String
deriving DecidableEq

/-- The `/ask` endpoint: requires an active retriever, strips the
question, dispatches on the strategy tag, re-runs a plain retrieval on
the stripped question to build up to 3 excerpt previews
(`page_content[:200] + "..."`), and appends one conversation row.  Any
collaborator failure is caught and surfaced as a 500 `Question
failed: ...`; inserting with a NULL `document_id` violates the
`NOT NULL` column constraint and is likewise caught. -/
def ask_question (retrieve : String → Except String (List Document))
    (llm : String → Except String String)
    (user_id : Nat) (question_raw rag_type : String)
    (session : UserSession) (db : DB) :
    Except HTTPError AnswerResponse × UserSession × DB :=
  if session.retriever = none then
    (Except.error ⟨400, "No document uploaded. Please upload a document or URL first."⟩,
     session, db)
  else
    match dispatch_chain retrieve llm rag_type question_raw.trim with
    | Except.error e => (Except.error ⟨500, "Question failed: " ++ e⟩, session, db)
    | Except.ok answer =>
      match retrieve question_raw.trim with
      | Except.error e => (Except.error ⟨500, "Question failed: " ++ e⟩, session, db)
      | Except.ok relevant_docs =>
        match session.document_id with
        | none =>
          (Except.error
            ⟨500, "Question failed: NOT NULL constraint failed: conversations.document_id"⟩,
           session, db)
        | some doc_id =>
          (Except.ok
            ⟨answer, (relevant_docs.take 3).map (fun d => d.page_content.take 200 ++ "...")⟩,
           session,
           { db with conversations := db.conversations ++
               [⟨user_id, doc_id, question_raw.trim, answer, rag_type⟩] })

/-- Specification-side deduplication helper: drop elements already in
`seen`, keep the first occurrence of each remaining element in order.
-/
def dedup_first_aux (seen : List String) : List String → List String
  | [] => []
  | x :: xs =>
    if x ∈ seen then dedup_first_aux seen xs
    else x :: dedup_first_aux (x :: seen) xs

/-- Specification-side deduplication, written to the spec's words:
keep the first occurrence of each string in order and discard any
later exact duplicate.  `get_unique_docs` is compared against it. -/
def first_occurrence_dedup (l : List String) : List String :=
  dedup_first_aux [] l

/-- Concrete chunk used to exercise the endpoints. -/
def doc_a : Document := ⟨"alpha chunk", "doc.txt", "file"⟩

/-- Second concrete chunk used to exercise the endpoints. -/
def doc_b : Document := ⟨"beta chunk", "doc.txt", "file"⟩

/-- A retriever whose every call raises. -/
def retrieve_fail_w : String → Except String (List Document) :=
  fun _ => Except.error "index down"

/-- A retriever that always returns the two concrete chunks. -/
def retrieve_w : String → Except String (List Document) :=
  fun _ => Except.ok [doc_a, doc_b]

/-- A chat model that always returns the same completion. -/
def llm_w : String → Except String String :=
  fun _ => Except.ok "một câu trả lời"

/-- An extraction collaborator returning text shorter than 50 characters. -/
def extract_short_w : FileInput → Except HTTPError String :=
  fun _ => Except.ok "too short"

/-- An extraction collaborator returning text longer than 50 characters. -/
def extract_long_w : FileInput → Except HTTPError String :=
  fun _ => Except.ok "This corpus text is certainly longer than fifty characters in total length."

/-- A URL extraction collaborator that succeeds. -/
def extract_url_w : String → Except HTTPError (String × String) :=
  fun u => Except.ok ("web page text that is clearly longer than fifty characters overall", u)

/-- A one-chunk splitter. -/
def split_w : Document → List Document := fun d => [d]

/-- An indexing collaborator that succeeds with handle 1. -/
def index_ok_w : List Document → Except String Nat := fun _ => Except.ok 1

/-- An indexing collaborator that raises. -/
def index_fail_w : List Document → Except String Nat := fun _ => Except.error "Chroma down"

/-- A document-row insert that succeeds with row id 11. -/
def persist_ok_w : Nat → String → Nat → Nat → Nat → String → Except String Nat :=
  fun _ _ _ _ _ _ => Except.ok 11

/-- A document-row insert that raises. -/
def persist_fail_w : Nat → String → Nat → Nat → Nat → String → Except String Nat :=
  fun _ _ _ _ _ _ => Except.error "database is locked"

/-- A concrete uploaded file. -/
def file_w : FileInput := ⟨"new.txt", "bytes"⟩

/-- A session already holding an active corpus (the state before a
second upload or an ask). -/
def session_old_w : UserSession :=
  ⟨7, [⟨"old corpus text", "old.txt", "file"⟩], some "old.txt", some "file",
   some 3, some 3, some 9⟩

/-- A concrete user row. -/
def user_w : UserRec := ⟨1, "alice", "a@x.com", "h"⟩

/-- A concrete token row for `user_w`, expiring at time 10. -/
def session_rec_w : SessionRec := ⟨1, "tokA", 10⟩

/-- A concrete database with one user and one live token. -/
def db_w : DB := ⟨[user_w], [session_rec_w], []⟩

theorem mem_dedup_first_aux {x : String} :
    ∀ {l seen : List String}, x ∈ dedup_first_aux seen l ↔ x ∈ l ∧ x ∉ seen := by
  intro l
  induction l with
  | nil => intro seen; simp [dedup_first_aux]
  | cons a l ih =>
    intro seen
    by_cases ha : a ∈ seen
    · simp only [dedup_first_aux, if_pos ha, ih, List.mem_cons]
      constructor
      · rintro ⟨hx, hns⟩; exact ⟨Or.inr hx, hns⟩
      · rintro ⟨hx | hx, hns⟩
        · exact absurd (hx ▸ ha) hns
        · exact ⟨hx, hns⟩
    · simp only [dedup_first_aux, if_neg ha, List.mem_cons, ih]
      by_cases hxa : x = a
      · subst hxa; simp [ha]
      · simp [hxa]

theorem dedup_first_aux_congr :
    ∀ (l : List String) {s1 s2 : List String}, (∀ x, x ∈ s1 ↔ x ∈ s2) →
      dedup_first_aux s1 l = dedup_first_aux s2 l := by
  intro l
  induction l with
  | nil => intro s1 s2 _; rfl
  | cons a l ih =>
    intro s1 s2 h
    by_cases ha : a ∈ s1
    · simp only [dedup_first_aux, if_pos ha, if_pos ((h a).mp ha)]
      exact ih h
    · have ha2 : a ∉ s2 := fun hc => ha ((h a).mpr hc)
      simp only [dedup_first_aux, if_neg ha, if_neg ha2]
      refine congrArg (a :: ·) (ih ?_)
      intro x; simp [h x]

theorem dedup_first_aux_append (l1 : List String) :
    ∀ (seen l2 : List String),
      dedup_first_aux seen (l1 ++ l2) =
        dedup_first_aux seen l1 ++ dedup_first_aux (l1 ++ seen) l2 := by
  induction l1 with
  | nil => intro seen l2; simp [dedup_first_aux]
  | cons a l1 ih =>
    intro seen l2
    by_cases ha : a ∈ seen
    · have hcong : dedup_first_aux (l1 ++ seen) l2 = dedup_first_aux (a :: (l1 ++ seen)) l2 :=
        dedup_first_aux_congr l2 (by
          intro x
          constructor
          · intro hx; exact List.mem_cons_of_mem _ hx
          · intro hx
            rcases List.mem_cons.mp hx with rfl | hx
            · exact List.mem_append.mpr (Or.inr ha)
            · exact hx)
      calc dedup_first_aux seen ((a :: l1) ++ l2)
          = dedup_first_aux seen (l1 ++ l2) := by
            simp only [List.cons_append, dedup_first_aux, if_pos ha]
            rfl
        _ = dedup_first_aux seen l1 ++ dedup_first_aux (l1 ++ seen) l2 := ih seen l2
        _ = dedup_first_aux seen l1 ++ dedup_first_aux (a :: (l1 ++ seen)) l2 := by rw [hcong]
        _ = dedup_first_aux seen (a :: l1) ++ dedup_first_aux ((a :: l1) ++ seen) l2 := by
            simp only [dedup_first_aux, if_pos ha, List.cons_append]
    · have hcong : dedup_first_aux (l1 ++ (a :: seen)) l2
          = dedup_first_aux (a :: (l1 ++ seen)) l2 :=
        dedup_first_aux_congr l2 (by
          intro x
          simp only [List.mem_append, List.mem_cons]
          tauto)
      calc dedup_first_aux seen ((a :: l1) ++ l2)
          = a :: dedup_first_aux (a :: seen) (l1 ++ l2) := by
            simp only [List.cons_append, dedup_first_aux, if_neg ha]
            rfl
        _ = a :: (dedup_first_aux (a :: seen) l1 ++ dedup_first_aux (l1 ++ (a :: seen)) l2) := by
            rw [ih]
        _ = a :: (dedup_first_aux (a :: seen) l1 ++ dedup_first_aux (a :: (l1 ++ seen)) l2) := by
            rw [hcong]
        _ = dedup_first_aux seen (a :: l1) ++ dedup_first_aux ((a :: l1) ++ seen) l2 := by
            simp only [dedup_first_aux, if_neg ha, List.cons_append]

theorem dedup_first_aux_eq_nil :
    ∀ {l seen : List String}, (∀ x ∈ l, x ∈ seen) → dedup_first_aux seen l = [] := by
  intro l
  induction l with
  | nil => intro seen _; rfl
  | cons a l ih =>
    intro seen h
    have ha : a ∈ seen := h a (List.mem_cons_self a l)
    simp only [dedup_first_aux, if_pos ha]
    exact ih (fun x hx => h x (List.mem_cons_of_mem _ hx))

theorem nodup_dedup_first_aux :
    ∀ (l seen : List String), (dedup_first_aux seen l).Nodup := by
  intro l
  induction l with
  | nil => intro seen; exact List.nodup_nil
  | cons a l ih =>
    intro seen
    by_cases ha : a ∈ seen
    · simpa only [dedup_first_aux, if_pos ha] using ih seen
    · simp only [dedup_first_aux, if_neg ha]
      refine List.nodup_cons.mpr ⟨?_, ih _⟩
      intro hc
      exact (mem_dedup_first_aux.mp hc).2 (List.mem_cons_self a seen)

theorem dedup_first_aux_sublist :
    ∀ (l seen : List String), List.Sublist (dedup_first_aux seen l) l := by
  intro l
  induction l with
  | nil => intro seen; exact List.Sublist.refl []
  | cons a l ih =>
    intro seen
    by_cases ha : a ∈ seen
    · simpa only [dedup_first_aux, if_pos ha] using (ih seen).cons a
    · simpa only [dedup_first_aux, if_neg ha] using (ih (a :: seen)).cons₂ a

/-- The spec-side dedup is a sublist of its input: every kept element
occurs in the input, in input order. -/
theorem first_occurrence_dedup_sublist (l : List String) :
    List.Sublist (first_occurrence_dedup l) l :=
  dedup_first_aux_sublist l []

theorem keys_dict_insert (m : List (String × Document)) (k : String) (v : Document) :
    (dict_insert m k v).map Prod.fst =
      if k ∈ m.map Prod.fst then m.map Prod.fst else m.map Prod.fst ++ [k] := by
  unfold dict_insert
  by_cases h : k ∈ m.map Prod.fst
  · have hany : m.any (fun p => decide (p.1 = k)) = true := by
      rcases List.mem_map.mp h with ⟨p, hp, hk⟩
      exact List.any_eq_true.mpr ⟨p, hp, by simp [hk]⟩
    rw [if_pos h, if_pos hany, List.map_map]
    have hfun : (Prod.fst ∘ fun p : String × Document => if p.1 = k then (k, v) else p)
        = Prod.fst := by
      funext p
      by_cases hp : p.1 = k
      · simp [Function.comp, hp]
      · simp [Function.comp, hp]
    rw [hfun]
  · have hany : m.any (fun p => decide (p.1 = k)) = false := by
      by_contra hc
      have := List.any_eq_true.mp (Bool.of_not_eq_false hc)
      rcases this with ⟨p, hp, hpk⟩
      exact h (List.mem_map.mpr ⟨p, hp, by simpa using hpk⟩)
    rw [if_neg h]
    simp [hany]

theorem keys_foldl_dict_insert (l : List Document) :
    ∀ m : List (String × Document),
      (l.foldl (fun m doc => dict_insert m doc.page_content doc) m).map Prod.fst =
        m.map Prod.fst ++ dedup_first_aux (m.map Prod.fst) (l.map Document.page_content) := by
  induction l with
  | nil => intro m; simp [dedup_first_aux]
  | cons d l ih =>
    intro m
    rw [List.foldl_cons, ih]
    by_cases h : d.page_content ∈ m.map Prod.fst
    · have hkeys : (dict_insert m d.page_content d).map Prod.fst = m.map Prod.fst := by
        rw [keys_dict_insert, if_pos h]
      rw [hkeys, List.map_cons]
      simp only [dedup_first_aux, if_pos h]
    · have hkeys : (dict_insert m d.page_content d).map Prod.fst
          = m.map Prod.fst ++ [d.page_content] := by
        rw [keys_dict_insert, if_neg h]
      rw [hkeys, List.map_cons]
      simp only [dedup_first_aux, if_neg h]
      rw [@dedup_first_aux_congr (l.map Document.page_content)
            (m.map Prod.fst ++ [d.page_content])
            (d.page_content :: m.map Prod.fst) (by intro x; simp; tauto),
          List.append_assoc]
      rfl

theorem values_map_content (m : List (String × Document))
    (h : ∀ p ∈ m, p.2.page_content = p.1) :
    (m.map Prod.snd).map Document.page_content = m.map Prod.fst := by
  rw [List.map_map]
  exact List.map_congr_left (fun p hp => h p hp)

theorem dict_insert_wf {m : List (String × Document)} {k : String} {v : Document}
    (hm : ∀ p ∈ m, p.2.page_content = p.1) (hv : v.page_content = k) :
    ∀ p ∈ dict_insert m k v, p.2.page_content = p.1 := by
  unfold dict_insert
  by_cases hany : m.any (fun p => decide (p.1 = k)) = true
  · rw [if_pos hany]
    intro p hp
    rcases List.mem_map.mp hp with ⟨q, hq, hpq⟩
    by_cases hqk : q.1 = k
    · rw [if_pos hqk] at hpq
      rw [← hpq]
      exact hv
    · rw [if_neg hqk] at hpq
      exact hpq ▸ hm q hq
  · rw [if_neg hany]
    intro p hp
    rcases List.mem_append.mp hp with hp | hp
    · exact hm p hp
    · rcases List.mem_singleton.mp hp with rfl
      exact hv

theorem foldl_dict_wf (l : List Document) :
    ∀ m : List (String × Document), (∀ p ∈ m, p.2.page_content = p.1) →
      ∀ p ∈ l.foldl (fun m doc => dict_insert m doc.page_content doc) m,
        p.2.page_content = p.1 := by
  induction l with
  | nil => intro m hm; exact hm
  | cons d l ih =>
    intro m hm
    rw [List.foldl_cons]
    exact ih _ (dict_insert_wf hm rfl)

theorem get_unique_map_content (doc_lists : List (List Document)) :
    (get_unique_docs doc_lists).map Document.page_content =
      first_occurrence_dedup ((doc_lists.flatten).map Document.page_content) := by
  unfold get_unique_docs first_occurrence_dedup
  rw [values_map_content _ (foldl_dict_wf _ [] (by intro p hp; cases hp)),
      keys_foldl_dict_insert]
  rfl

/-- Claim C2: the Multi-Query merge deduplicates by exact full-text
equality: the merged list's texts are exactly the first-occurrence
dedup of the flattened per-query texts (each distinct text appears
once, at the position of its first occurrence, first query winning),
the merged texts are duplicate-free, and the merge is idempotent under
duplicated query result lists. -/
theorem mq_merge_dedup_spec (doc_lists : List (List Document)) :
    (get_unique_docs doc_lists).map Document.page_content =
      first_occurrence_dedup ((doc_lists.flatten).map Document.page_content) ∧
    ((get_unique_docs doc_lists).map Document.page_content).Nodup ∧
    (get_unique_docs (doc_lists ++ doc_lists)).map Document.page_content =
      (get_unique_docs doc_lists).map Document.page_content := by
  refine ⟨get_unique_map_content _, ?_, ?_⟩
  · rw [get_unique_map_content]
    exact nodup_dedup_first_aux _ _
  · rw [get_unique_map_content, get_unique_map_content, List.flatten_append, List.map_append]
    unfold first_occurrence_dedup
    rw [dedup_first_aux_append]
    have hnil : dedup_first_aux
        ((doc_lists.flatten.map Document.page_content) ++ [])
        (doc_lists.flatten.map Document.page_content) = [] :=
      dedup_first_aux_eq_nil (fun x hx => List.mem_append.mpr (Or.inl hx))
    rw [hnil, List.append_nil]

/-- Claim C8: in Multi-Query retrieval each generated query's
retrieval runs independently: the collected result lists are exactly
those of the queries whose retrieval succeeded, in order
(a failing query is skipped without aborting the others); zero queries
yield an empty result list; if every retrieval fails the result is
empty; and when the generated queries parse to the empty list the
whole chain still proceeds, generating over an empty context instead
of failing. -/
theorem mq_retrieval_independent (retrieve : String → Except String (List Document))
    (llm : String → Except String String) (queries : List String)
    (question generated : String) :
    retrieve_all retrieve queries = queries.filterMap (fun q => (retrieve q).toOption) ∧
    retrieve_all retrieve ([] : List String) = [] ∧
    ((∀ q ∈ queries, (retrieve q).toOption = none) → retrieve_all retrieve queries = []) ∧
    (llm (multi_query_prompt question) = Except.ok generated → parse_queries generated = [] →
      multi_query_full_chain retrieve llm question = llm (mq_answer_prompt "" question)) := by
  refine ⟨?_, rfl, ?_, ?_⟩
  · induction queries with
    | nil => rfl
    | cons q qs ih =>
      cases hrq : retrieve q with
      | ok docs =>
        simp only [retrieve_all, hrq, List.filterMap_cons, Except.toOption]
        rw [ih]
        rfl
      | error e =>
        simp only [retrieve_all, hrq, List.filterMap_cons, Except.toOption]
        rw [ih]
        rfl
  · intro h
    induction queries with
    | nil => rfl
    | cons q qs ih =>
      have hq := h q (List.mem_cons_self q qs)
      cases hrq : retrieve q with
      | ok docs =>
        rw [hrq] at hq
        exact absurd hq (by simp [Except.toOption])
      | error e =>
        simp only [retrieve_all, hrq]
        exact ih (fun q2 hq2 => h q2 (List.mem_cons_of_mem _ hq2))
  · intro hgen hparse
    unfold multi_query_full_chain
    rw [hgen]
    show llm (mq_answer_prompt
      (format_docs (get_unique_docs (retrieve_all retrieve (parse_queries generated))))
      question) = llm (mq_answer_prompt "" question)
    rw [hparse]
    rfl

/-- Witness for the C8 theorem at concrete inputs: with a retriever
that fails on every query, the collected result set is empty. -/
theorem mq_retrieval_independent_witness :
    retrieve_all retrieve_fail_w ["q1", "q2"] = [] :=
  (mq_retrieval_independent retrieve_fail_w llm_w ["q1", "q2"] "q" "g").2.2.1
    (fun _ _ => rfl)

/-- Claim C7: whenever the extracted text is shorter than 50
characters, the upload fails with the 400 content-too-short error and
the session — whatever corpus it held before, including none — is
returned exactly unchanged. -/
theorem content_too_short_unchanged
    (extract_file : FileInput → Except HTTPError String)
    (extract_url : String → Except HTTPError (String × String))
    (split : Document → List Document)
    (index : List Document → Except String Nat)
    (persist_doc : Nat → String → Nat → Nat → Nat → String → Except String Nat)
    (user_id : Nat) (file : Option FileInput) (url : Option String)
    (session : UserSession) (text source_name source_type : String)
    (hres : resolve_input extract_file extract_url file url
      = Except.ok (text, source_name, source_type))
    (hlen : text.length < 50) :
    upload_document extract_file extract_url split index persist_doc user_id file url session
      = (Except.error ⟨400, "Content too short (less than 50 characters)."⟩, session) := by
  unfold upload_document
  rw [hres]
  show (if text.length < 50 then _ else _) = _
  rw [if_pos hlen]

/-- Witness for the C7 theorem at concrete inputs: a 9-character
extraction against a session that already holds a corpus. -/
theorem content_too_short_unchanged_witness :
    upload_document extract_short_w extract_url_w split_w index_ok_w persist_ok_w 7
        (some file_w) none session_old_w
      = (Except.error ⟨400, "Content too short (less than 50 characters)."⟩, session_old_w) :=
  content_too_short_unchanged extract_short_w extract_url_w split_w index_ok_w persist_ok_w 7
    (some file_w) none session_old_w "too short" "new.txt" "file" rfl (by decide)

/-- Counterexample to claim C3 as stated: an upload that supplies both
a file and a URL does not fail with BadRequest — the file branch wins
and the upload succeeds. -/
theorem upload_both_inputs_cex :
    (upload_document extract_long_w extract_url_w split_w index_ok_w persist_ok_w 7
        (some file_w) (some "http://example.com") (UserSession.init 7)).1.isOk = true := by
  rfl

/-- Claim C3 (amended): supplying neither a file nor a URL (or only
falsy ones) fails with the 400 BadRequest "Provide either file or
URL", leaving the session unchanged; but supplying both is not an
error — the file takes precedence and the request behaves exactly as
the same upload with the URL omitted. -/
theorem upload_input_selection
    (extract_file : FileInput → Except HTTPError String)
    (extract_url : String → Except HTTPError (String × String))
    (split : Document → List Document)
    (index : List Document → Except String Nat)
    (persist_doc : Nat → String → Nat → Nat → Nat → String → Except String Nat)
    (user_id : Nat) (session : UserSession) :
    (∀ file url, file_truthy file = false → url_truthy url = false →
      upload_document extract_file extract_url split index persist_doc user_id file url session
        = (Except.error ⟨400, "Provide either file or URL"⟩, session)) ∧
    (∀ f url, file_truthy (some f) = true →
      upload_document extract_file extract_url split index persist_doc user_id
          (some f) url session
        = upload_document extract_file extract_url split index persist_doc user_id
            (some f) none session) := by
  constructor
  · intro file url hf hu
    have hurl : resolve_url extract_url url = Except.error ⟨400, "Provide either file or URL"⟩ := by
      cases url with
      | none => rfl
      | some u =>
        have hu2 : u = "" := by
          by_contra hc
          simp [url_truthy, hc] at hu
        simp only [resolve_url]
        rw [if_pos hu2]
    have hres : resolve_input extract_file extract_url file url
        = Except.error ⟨400, "Provide either file or URL"⟩ := by
      cases file with
      | none => exact hurl
      | some f =>
        have hf2 : f.filename = "" := by
          by_contra hc
          simp [file_truthy, hc] at hf
        simp only [resolve_input]
        rw [if_pos hf2]
        exact hurl
    unfold upload_document
    rw [hres]
  · intro f url hf
    have hfn : ¬ f.filename = "" := by
      by_contra hc
      simp [file_truthy, hc] at hf
    have hres : resolve_input extract_file extract_url (some f) url
        = resolve_input extract_file extract_url (some f) none := by
      simp only [resolve_input]
      rw [if_neg hfn, if_neg hfn]
    unfold upload_document
    rw [hres]

/-- Witness for the C3 (amended) theorem at concrete inputs: with both
a real file and a URL supplied, the upload equals the file-only
upload. -/
theorem upload_input_selection_witness :
    upload_document extract_long_w extract_url_w split_w index_ok_w persist_ok_w 7
        (some file_w) (some "http://example.com") (UserSession.init 7)
      = upload_document extract_long_w extract_url_w split_w index_ok_w persist_ok_w 7
          (some file_w) none (UserSession.init 7) :=
  (upload_input_selection extract_long_w extract_url_w split_w index_ok_w persist_ok_w 7
    (UserSession.init 7)).2 file_w (some "http://example.com") (by decide)

/-- Counterexample to claim C1 as stated: with a prior corpus in the
session (`session_old_w`) and an indexing failure, the failed upload
leaves the session different from what it was before the request —
the replacement is not all-or-nothing. -/
theorem upload_atomicity_cex :
    (upload_document extract_long_w extract_url_w split_w index_fail_w persist_ok_w 7
        (some file_w) none session_old_w).1.isOk = false ∧
    (upload_document extract_long_w extract_url_w split_w index_fail_w persist_ok_w 7
        (some file_w) none session_old_w).2 ≠ session_old_w := by
  constructor
  · rfl
  · decide

/-- Claim C1 (amended): a failure before the first session assignment
(input selection, extraction, or the length validation) leaves the
session exactly unchanged; but the replacement is not all-or-nothing
afterwards: an indexing failure leaves the session with the new
documents, source name and source kind while vectorstore, retriever
and document id keep their prior values, and a persistence failure
additionally leaves the new vectorstore/retriever with the prior
document id. -/
theorem upload_failure_frame
    (extract_file : FileInput → Except HTTPError String)
    (extract_url : String → Except HTTPError (String × String))
    (split : Document → List Document)
    (index : List Document → Except String Nat)
    (persist_doc : Nat → String → Nat → Nat → Nat → String → Except String Nat)
    (user_id : Nat) (file : Option FileInput) (url : Option String)
    (session : UserSession) :
    (∀ e, resolve_input extract_file extract_url file url = Except.error e →
      upload_document extract_file extract_url split index persist_doc user_id file url session
        = (Except.error e, session)) ∧
    (∀ text sn st, resolve_input extract_file extract_url file url = Except.ok (text, sn, st) →
      text.length < 50 →
      upload_document extract_file extract_url split index persist_doc user_id file url session
        = (Except.error ⟨400, "Content too short (less than 50 characters)."⟩, session)) ∧
    (∀ text sn st e, resolve_input extract_file extract_url file url = Except.ok (text, sn, st) →
      ¬ text.length < 50 →
      index (split ⟨text, sn, st⟩) = Except.error e →
      upload_document extract_file extract_url split index persist_doc user_id file url session
        = (Except.error ⟨500, "Processing failed: " ++ e⟩,
           { session with documents := [⟨text, sn, st⟩],
                          source_name := some sn, source_type := some st })) ∧
    (∀ text sn st vs e, resolve_input extract_file extract_url file url
        = Except.ok (text, sn, st) →
      ¬ text.length < 50 →
      index (split ⟨text, sn, st⟩) = Except.ok vs →
      persist_doc user_id sn text.utf8ByteSize (split ⟨text, sn, st⟩).length
          (word_count text) st = Except.error e →
      upload_document extract_file extract_url split index persist_doc user_id file url session
        = (Except.error ⟨500, "Processing failed: " ++ e⟩,
           { session with documents := [⟨text, sn, st⟩],
                          source_name := some sn, source_type := some st,
                          vectorstore := some vs, retriever := some vs })) := by
  refine ⟨?_, ?_, ?_, ?_⟩
  · intro e hres
    unfold upload_document
    rw [hres]
  · intro text sn st hres hlen
    unfold upload_document
    rw [hres]
    show (if text.length < 50 then _ else _) = _
    rw [if_pos hlen]
  · intro text sn st e hres hlen hidx
    unfold upload_document
    rw [hres]
    show (if text.length < 50 then _ else _) = _
    rw [if_neg hlen]
    show (match index (split ⟨text, sn, st⟩) with
          | Except.error e => _
          | Except.ok vs => _) = _
    rw [hidx]
  · intro text sn st vs e hres hlen hidx hper
    unfold upload_document
    rw [hres]
    show (if text.length < 50 then _ else _) = _
    rw [if_neg hlen]
    show (match index (split ⟨text, sn, st⟩) with
          | Except.error e => _
          | Except.ok vs => _) = _
    rw [hidx]
    show (match persist_doc user_id sn text.utf8ByteSize (split ⟨text, sn, st⟩).length
            (word_count text) st with
          | Except.error e => _
          | Except.ok row_id => _) = _
    rw [hper]

/-- Witness for the C1 (amended) theorem at concrete inputs: an
indexing failure over a session that already holds a corpus leaves the
predicted partially-updated session. -/
theorem upload_failure_frame_witness :
    upload_document extract_long_w extract_url_w split_w index_fail_w persist_ok_w 7
        (some file_w) none session_old_w
      = (Except.error ⟨500, "Processing failed: Chroma down"⟩,
         { session_old_w with
             documents := [⟨"This corpus text is certainly longer than fifty characters in total length.",
                            "new.txt", "file"⟩],
             source_name := some "new.txt", source_type := some "file" }) :=
  (upload_failure_frame extract_long_w extract_url_w split_w index_fail_w persist_ok_w 7
    (some file_w) none session_old_w).2.2.1
    "This corpus text is certainly longer than fifty characters in total length."
    "new.txt" "file" "Chroma down" rfl (by decide) rfl

theorem verify_token_error_401 (tok : Option String) (db : DB) (now : Nat) :
    ∀ e, verify_token tok db now = Except.error e → e.status_code = 401 := by
  intro e h
  cases tok with
  | none =>
    simp only [verify_token] at h
    cases h
    rfl
  | some t =>
    simp only [verify_token] at h
    by_cases ht : t = ""
    · rw [if_pos ht] at h
      cases h
      rfl
    · rw [if_neg ht] at h
      cases hrow : token_row db t now with
      | none =>
        rw [hrow] at h
        cases h
        rfl
      | some p =>
        rw [hrow] at h
        rcases p with ⟨u, s⟩
        exact Except.noConfusion h

theorem verify_token_ok_some (tok : Option String) (db : DB) (now : Nat) (info : UserInfo)
    (h : verify_token tok db now = Except.ok info) :
    ∃ t, tok = some t ∧ t ≠ "" := by
  cases tok with
  | none =>
    simp only [verify_token] at h
    exact Except.noConfusion h
  | some t =>
    simp only [verify_token] at h
    by_cases ht : t = ""
    · rw [if_pos ht] at h
      exact Except.noConfusion h
    · exact ⟨t, rfl, ht⟩

theorem token_row_none_of_no_token (db : DB) (t : String) (now : Nat)
    (h : ∀ s ∈ db.sessions, ¬ s.token = t) :
    token_row db t now = none := by
  unfold token_row
  have hfil : db.sessions.filter (fun s => decide (s.token = t ∧ now < s.expires_at)) = [] := by
    rw [List.filter_eq_nil_iff]
    intro s hs
    simp [h s hs]
  rw [hfil]
  rfl

theorem head_filterMap_filter_isSome {α β : Type} (l : List α) (p : α → Bool) (j : α → Option β)
    (hj : ∀ a ∈ l, p a = true → (j a).isSome = true) :
    ((l.filter p).filterMap j).head?.isSome = true ↔ ∃ a ∈ l, p a = true := by
  induction l with
  | nil => simp
  | cons a l ih =>
    by_cases hpa : p a = true
    · have hja2 : (j a).isSome = true := hj a (List.mem_cons_self a l) hpa
      cases hja : j a with
      | none =>
        rw [hja] at hja2
        exact absurd hja2 (by simp)
      | some b =>
        constructor
        · intro _
          exact ⟨a, List.mem_cons_self a l, hpa⟩
        · intro _
          rw [List.filter_cons_of_pos hpa, List.filterMap_cons, hja]
          rfl
    · rw [List.filter_cons_of_neg hpa,
          ih (fun x hx hpx => hj x (List.mem_cons_of_mem _ hx) hpx)]
      constructor
      · rintro ⟨x, hx, hpx⟩
        exact ⟨x, List.mem_cons_of_mem _ hx, hpx⟩
      · rintro ⟨x, hx, hpx⟩
        rcases List.mem_cons.mp hx with rfl | hx
        · exact absurd hpx hpa
        · exact ⟨x, hx, hpx⟩

theorem token_row_isSome_iff (db : DB) (t : String) (now : Nat)
    (hwf : ∀ s ∈ db.sessions, ∃ u ∈ db.users, u.id = s.user_id) :
    (token_row db t now).isSome = true ↔
      ∃ s ∈ db.sessions, s.token = t ∧ now < s.expires_at := by
  unfold token_row
  rw [head_filterMap_filter_isSome]
  · constructor
    · rintro ⟨s, hs, hps⟩
      refine ⟨s, hs, ?_⟩
      simpa using hps
    · rintro ⟨s, hs, hp1, hp2⟩
      exact ⟨s, hs, by simp [hp1, hp2]⟩
  · intro s hs hps
    rcases hwf s hs with ⟨u, hu, huid⟩
    have hfind : (db.users.find? (fun u2 => decide (u2.id = s.user_id))).isSome := by
      rw [List.find?_isSome]
      exact ⟨u, hu, by simp [huid]⟩
    cases hf : db.users.find? (fun u2 => decide (u2.id = s.user_id)) with
    | none =>
      rw [hf] at hfind
      exact absurd hfind (by simp)
    | some u2 => simp [hf]

theorem token_row_some_spec (db : DB) (t : String) (now : Nat) (u : UserRec) (s : SessionRec)
    (h : token_row db t now = some (u, s)) :
    s ∈ db.sessions ∧ s.token = t ∧ now < s.expires_at ∧ u ∈ db.users ∧ u.id = s.user_id := by
  unfold token_row at h
  have hmem : (u, s) ∈ (db.sessions.filter
      (fun s2 => decide (s2.token = t ∧ now < s2.expires_at))).filterMap
      (fun s2 => (db.users.find? (fun u2 => decide (u2.id = s2.user_id))).map
        (fun u2 => (u2, s2))) := by
    cases hl : (db.sessions.filter
        (fun s2 => decide (s2.token = t ∧ now < s2.expires_at))).filterMap
        (fun s2 => (db.users.find? (fun u2 => decide (u2.id = s2.user_id))).map
          (fun u2 => (u2, s2))) with
    | nil =>
      rw [hl] at h
      exact Option.noConfusion h
    | cons x xs =>
      rw [hl] at h
      have hx : x = (u, s) := by
        injection h
      rw [← hx]
      exact List.mem_cons_self x xs
  rcases List.mem_filterMap.mp hmem with ⟨s2, hs2, hjs2⟩
  rcases Option.map_eq_some'.mp hjs2 with ⟨u2, hfind, hpair⟩
  have hus : u2 = u ∧ s2 = s := by
    constructor
    · exact congrArg Prod.fst hpair
    · exact congrArg Prod.snd hpair
  rcases hus with ⟨rfl, rfl⟩
  rcases List.mem_filter.mp hs2 with ⟨hmem2, hdec⟩
  have hprop : s2.token = t ∧ now < s2.expires_at := by simpa using hdec
  refine ⟨hmem2, hprop.1, hprop.2, List.mem_of_find?_eq_some hfind, ?_⟩
  have := List.find?_some hfind
  simpa using this

/-- Claim C5: token validation succeeds exactly when a stored token
record matches and the current time is strictly before its expiry (an
absent, unknown, empty or expired token — even one still present in
storage — is rejected); every failure carries status 401
(Unauthorized); success returns the owning user's identity; and the
call leaves the database unchanged.  The well-formedness hypothesis
says every stored token references an existing user, which
registration and login guarantee. -/
theorem validate_token_spec (db : DB) (tok : Option String) (now : Nat)
    (hwf : ∀ s ∈ db.sessions, ∃ u ∈ db.users, u.id = s.user_id) :
    ((verify_token tok db now).isOk = true ↔
      ∃ t, tok = some t ∧ t ≠ "" ∧ ∃ s ∈ db.sessions, s.token = t ∧ now < s.expires_at) ∧
    (∀ e, verify_token tok db now = Except.error e → e.status_code = 401) ∧
    (∀ info, verify_token tok db now = Except.ok info →
      ∃ u ∈ db.users, ∃ s ∈ db.sessions, u.id = s.user_id ∧ tok = some s.token ∧
        now < s.expires_at ∧ info = ⟨u.id, u.username, u.email⟩) ∧
    (verify_token_call tok db now).2 = db := by
  refine ⟨?_, verify_token_error_401 tok db now, ?_, rfl⟩
  · cases tok with
    | none =>
      simp only [verify_token]
      constructor
      · intro h
        exact absurd h (by simp [Except.isOk, Except.toBool])
      · rintro ⟨t, ht, _⟩
        exact Option.noConfusion ht
    | some t =>
      by_cases ht : t = ""
      · simp only [verify_token, if_pos ht]
        constructor
        · intro h
          exact absurd h (by simp [Except.isOk, Except.toBool])
        · rintro ⟨t2, ht2, htne, _⟩
          injection ht2 with ht3
          exact (htne (ht3.symm.trans ht)).elim
      · have hiff := token_row_isSome_iff db t now hwf
        simp only [verify_token, if_neg ht]
        cases hrow : token_row db t now with
        | none =>
          rw [hrow] at hiff
          constructor
          · intro h
            exact absurd h (by simp [Except.isOk, Except.toBool])
          · rintro ⟨t2, ht2, htne, hex⟩
            injection ht2 with ht3
            subst ht3
            have := hiff.mpr hex
            exact absurd this (by simp)
        | some p =>
          rcases p with ⟨u, s⟩
          rw [hrow] at hiff
          constructor
          · intro _
            exact ⟨t, rfl, ht, hiff.mp (by simp)⟩
          · intro _
            rfl
  · intro info hinfo
    cases tok with
    | none =>
      simp only [verify_token] at hinfo
      exact Except.noConfusion hinfo
    | some t =>
      simp only [verify_token] at hinfo
      by_cases ht : t = ""
      · rw [if_pos ht] at hinfo
        exact Except.noConfusion hinfo
      · rw [if_neg ht] at hinfo
        cases hrow : token_row db t now with
        | none =>
          rw [hrow] at hinfo
          exact Except.noConfusion hinfo
        | some p =>
          rcases p with ⟨u, s⟩
          rw [hrow] at hinfo
          have hspec := token_row_some_spec db t now u s hrow
          rcases hspec with ⟨hs, htok, hexp, hu, huid⟩
          have hinfo2 : info = ⟨u.id, u.username, u.email⟩ := by
            injection hinfo with h2
            exact h2.symm
          exact ⟨u, hu, s, hs, huid, by rw [htok], hexp, hinfo2⟩

/-- Witness for the C5 theorem at concrete inputs: the live token of
`db_w` validates at time 5 (before its expiry 10). -/
theorem validate_token_spec_witness :
    (verify_token (some "tokA") db_w 5).isOk = true :=
  (validate_token_spec db_w (some "tokA") 5 (by decide)).1.mpr
    ⟨"tokA", rfl, by decide, session_rec_w, by decide, rfl, by decide⟩

/-- Counterexample to claim C4 as stated: logging out the live token
of `db_w` succeeds, but a second logout with the same (now deleted)
token is rejected with 401 instead of succeeding — logout is not
idempotent at the endpoint level. -/
theorem logout_not_idempotent_cex :
    (logout (some "tokA") db_w 5).1.isOk = true ∧
    (logout (some "tokA") (logout (some "tokA") db_w 5).2 5).1.isOk = false := by
  decide

/-- Claim C4 (amended): logout deletes every stored row carrying the
presented token and reports success — but only when the token is
currently valid, because the endpoint first runs token verification;
with an absent, unknown, already-deleted, or expired token it fails
with 401 (Unauthorized) and leaves the database unchanged.  Hence a
second logout with the same token leaves the stored sessions exactly
as after the first call (the deletion itself is idempotent on the
store) but returns Unauthorized instead of success. -/
theorem logout_behavior (db : DB) (tok : Option String) (now : Nat) :
    ((verify_token tok db now).isOk = true →
      logout tok db now =
        (Except.ok "Đăng xuất thành công",
         { db with sessions := db.sessions.filter (fun s => decide (¬ s.token = tok.getD "")) })) ∧
    ((verify_token tok db now).isOk = false →
      (logout tok db now).2 = db ∧
      ∃ e, (logout tok db now).1 = Except.error e ∧ e.status_code = 401) ∧
    ((logout tok db now).1.isOk = true →
      (logout tok (logout tok db now).2 now).1.isOk = false ∧
      (logout tok (logout tok db now).2 now).2 = (logout tok db now).2) := by
  refine ⟨?_, ?_, ?_⟩
  · intro hok
    cases hv : verify_token tok db now with
    | error e =>
      rw [hv] at hok
      exact absurd hok (by simp [Except.isOk, Except.toBool])
    | ok info =>
      unfold logout
      rw [hv]
  · intro hnok
    cases hv : verify_token tok db now with
    | ok info =>
      rw [hv] at hnok
      exact absurd hnok (by simp [Except.isOk, Except.toBool])
    | error e =>
      unfold logout
      rw [hv]
      exact ⟨rfl, e, rfl, verify_token_error_401 tok db now e hv⟩
  · intro hok
    cases hv : verify_token tok db now with
    | error e =>
      exfalso
      have hbad : (logout tok db now).1 = Except.error e := by
        unfold logout
        rw [hv]
      rw [hbad] at hok
      exact absurd hok (by simp [Except.isOk, Except.toBool])
    | ok info =>
      have hfst : logout tok db now =
          (Except.ok "Đăng xuất thành công",
           { db with sessions := db.sessions.filter (fun s => decide (¬ s.token = tok.getD "")) }) := by
        unfold logout
        rw [hv]
      obtain ⟨t, htok, htne⟩ := verify_token_ok_some tok db now info hv
      subst htok
      have hrow : token_row
          { db with sessions := db.sessions.filter (fun s => decide (¬ s.token = (some t).getD "")) } t now = none := by
        apply token_row_none_of_no_token
        intro s hs
        have hdec := (List.mem_filter.mp hs).2
        simpa using hdec
      have hv2 : verify_token (some t)
          { db with sessions := db.sessions.filter (fun s => decide (¬ s.token = (some t).getD "")) } now
          = Except.error ⟨401, "Token không hợp lệ hoặc đã hết hạn"⟩ := by
        simp only [verify_token]
        rw [if_neg htne, hrow]
      constructor
      · rw [hfst]
        show (logout (some t)
            { db with sessions := db.sessions.filter (fun s => decide (¬ s.token = (some t).getD "")) } now).1.isOk = false
        unfold logout
        rw [hv2]
        rfl
      · rw [hfst]
        show (logout (some t)
            { db with sessions := db.sessions.filter (fun s => decide (¬ s.token = (some t).getD "")) } now).2
          = { db with sessions := db.sessions.filter (fun s => decide (¬ s.token = (some t).getD "")) }
        unfold logout
        rw [hv2]

/-- Witness for the C4 (amended) theorem at a concrete input: the live
token of `db_w` logs out successfully and its row is deleted. -/
theorem logout_behavior_witness :
    logout (some "tokA") db_w 5 =
      (Except.ok "Đăng xuất thành công",
       { db_w with sessions := db_w.sessions.filter (fun s => decide (¬ s.token = (some "tokA").getD "")) }) :=
  (logout_behavior db_w (some "tokA") 5).1 (by decide)

/-- Claim C6: an Ask whose strategy tag is none of `basic`,
`multi_query`, `hyde` is not rejected — it dispatches exactly the
chain of `basic`, and its response (answer and excerpt previews,
or failure) and resulting session are those of the same Ask with tag
`basic`. -/
theorem unknown_rag_type_as_basic (retrieve : String → Except String (List Document))
    (llm : String → Except String String) (user_id : Nat)
    (question_raw rag_type : String) (session : UserSession) (db : DB)
    (_h1 : rag_type ≠ "basic") (h2 : rag_type ≠ "multi_query") (h3 : rag_type ≠ "hyde") :
    (∀ q, dispatch_chain retrieve llm rag_type q = dispatch_chain retrieve llm "basic" q) ∧
    (ask_question retrieve llm user_id question_raw rag_type session db).1 =
      (ask_question retrieve llm user_id question_raw "basic" session db).1 ∧
    (ask_question retrieve llm user_id question_raw rag_type session db).2.1 =
      (ask_question retrieve llm user_id question_raw "basic" session db).2.1 := by
  have hd : ∀ q, dispatch_chain retrieve llm rag_type q
      = dispatch_chain retrieve llm "basic" q := by
    intro q
    unfold dispatch_chain
    rw [if_neg h2, if_neg h3, if_neg (by decide : ¬ ("basic" = "multi_query")),
        if_neg (by decide : ¬ ("basic" = "hyde"))]
  refine ⟨hd, ?_⟩
  unfold ask_question
  by_cases hr : session.retriever = none
  · rw [if_pos hr, if_pos hr]
    exact ⟨rfl, rfl⟩
  · rw [if_neg hr, if_neg hr, hd]
    cases hdisp : dispatch_chain retrieve llm "basic" question_raw.trim with
    | error e => exact ⟨rfl, rfl⟩
    | ok answer =>
      cases hret : retrieve question_raw.trim with
      | error e => exact ⟨rfl, rfl⟩
      | ok docs =>
        cases hdid : session.document_id with
        | none => exact ⟨rfl, rfl⟩
        | some did => exact ⟨rfl, rfl⟩

/-- Witness for the C6 theorem at a concrete input: the unrecognized
tag `fancy` yields the same response as `basic`. -/
theorem unknown_rag_type_as_basic_witness :
    (ask_question retrieve_w llm_w 7 "câu hỏi" "fancy" session_old_w db_w).1 =
      (ask_question retrieve_w llm_w 7 "câu hỏi" "basic" session_old_w db_w).1 :=
  (unknown_rag_type_as_basic retrieve_w llm_w 7 "câu hỏi" "fancy" session_old_w db_w
    (by decide) (by decide) (by decide)).2.1

/-- Claim C9: on every successful Ask, whatever the strategy tag, the
excerpt previews come from a fresh plain retrieval on the (stripped)
original question — not from the chunks used to build the context —
with at most 3 previews, each the chunk's first 200 characters plus an
ellipsis and hence at most 203 characters long. -/
theorem ask_sources_spec (retrieve : String → Except String (List Document))
    (llm : String → Except String String) (user_id : Nat)
    (question_raw rag_type : String) (session : UserSession) (db : DB)
    (res : AnswerResponse)
    (h : (ask_question retrieve llm user_id question_raw rag_type session db).1
      = Except.ok res) :
    res.sources.length ≤ 3 ∧
    (∀ src ∈ res.sources, src.length ≤ 203) ∧
    ∃ docs, retrieve question_raw.trim = Except.ok docs ∧
      res.sources = (docs.take 3).map (fun d => d.page_content.take 200 ++ "...") := by
  unfold ask_question at h
  by_cases hr : session.retriever = none
  · rw [if_pos hr] at h
    exact Except.noConfusion h
  · rw [if_neg hr] at h
    cases hdisp : dispatch_chain retrieve llm rag_type question_raw.trim with
    | error e =>
      rw [hdisp] at h
      exact Except.noConfusion h
    | ok answer =>
      rw [hdisp] at h
      cases hret : retrieve question_raw.trim with
      | error e =>
        rw [hret] at h
        exact Except.noConfusion h
      | ok docs =>
        rw [hret] at h
        cases hdid : session.document_id with
        | none =>
          rw [hdid] at h
          exact Except.noConfusion h
        | some did =>
          rw [hdid] at h
          have hres : (⟨answer, (docs.take 3).map
              (fun d => d.page_content.take 200 ++ "...")⟩ : AnswerResponse) = res := by
            injection h
          subst hres
          refine ⟨?_, ?_, docs, rfl, rfl⟩
          · rw [List.length_map, List.length_take]
            exact Nat.min_le_left _ _
          · intro src hsrc
            rcases List.mem_map.mp hsrc with ⟨d, _, hdsrc⟩
            rw [← hdsrc, String.length_append]
            have h200 : (d.page_content.take 200).length ≤ 200 := by
              rw [String.take_eq, String.length_mk, List.length_take]
              exact Nat.min_le_left _ _
            have h3 : ("..." : String).length = 3 := rfl
            omega

set_option maxRecDepth 8192 in
/-- Witness for the C9 theorem at a concrete successful ask: two
previews, each within the 203-character bound. -/
theorem ask_sources_spec_witness :
    (⟨"một câu trả lời", ["alpha chunk...", "beta chunk..."]⟩
      : AnswerResponse).sources.length ≤ 3 ∧
    ∀ src ∈ (⟨"một câu trả lời", ["alpha chunk...", "beta chunk..."]⟩
      : AnswerResponse).sources, src.length ≤ 203 := by
  have h := ask_sources_spec retrieve_w llm_w 7 "câu hỏi" "basic" session_old_w db_w
    ⟨"một câu trả lời", ["alpha chunk...", "beta chunk..."]⟩ rfl
  exact ⟨h.1, h.2.1⟩

/-- Claim C10: Ask never mutates the active corpus: in every case
(success or failure) the session is returned unchanged and the users
and sessions tables are untouched; the only state that can change is
the conversations table, which on success gains exactly the one new
record of this question and answer. -/
theorem ask_frame_spec (retrieve : String → Except String (List Document))
    (llm : String → Except String String) (user_id : Nat)
    (question_raw rag_type : String) (session : UserSession) (db : DB) :
    (ask_question retrieve llm user_id question_raw rag_type session db).2.1 = session ∧
    ((ask_question retrieve llm user_id question_raw rag_type session db).2.2).users
      = db.users ∧
    ((ask_question retrieve llm user_id question_raw rag_type session db).2.2).sessions
      = db.sessions ∧
    ((ask_question retrieve llm user_id question_raw rag_type session db).1.isOk = false →
      (ask_question retrieve llm user_id question_raw rag_type session db).2.2 = db) ∧
    (∀ res, (ask_question retrieve llm user_id question_raw rag_type session db).1
        = Except.ok res →
      ∃ doc_id, session.document_id = some doc_id ∧
        ((ask_question retrieve llm user_id question_raw rag_type session db).2.2).conversations
          = db.conversations ++ [⟨user_id, doc_id, question_raw.trim, res.answer, rag_type⟩]) := by
  unfold ask_question
  by_cases hr : session.retriever = none
  · rw [if_pos hr]
    exact ⟨rfl, rfl, rfl, fun _ => rfl, fun res h => Except.noConfusion h⟩
  · rw [if_neg hr]
    cases hdisp : dispatch_chain retrieve llm rag_type question_raw.trim with
    | error e =>
      exact ⟨rfl, rfl, rfl, fun _ => rfl, fun res h => Except.noConfusion h⟩
    | ok answer =>
      cases hret : retrieve question_raw.trim with
      | error e =>
        exact ⟨rfl, rfl, rfl, fun _ => rfl, fun res h => Except.noConfusion h⟩
      | ok docs =>
        cases hdid : session.document_id with
        | none =>
          exact ⟨rfl, rfl, rfl, fun _ => rfl, fun res h => Except.noConfusion h⟩
        | some did =>
          refine ⟨rfl, rfl, rfl, ?_, ?_⟩
          · intro hbad
            exact Bool.noConfusion hbad
          · intro res h
            have hres : (⟨answer, (docs.take 3).map
                (fun d => d.page_content.take 200 ++ "...")⟩ : AnswerResponse) = res := by
              injection h
            refine ⟨did, rfl, ?_⟩
            rw [← hres]

set_option maxRecDepth 8192 in
/-- Witness for the C10 theorem at a concrete successful ask: the
conversations table gains exactly the one expected record. -/
theorem ask_frame_spec_witness :
    ∃ doc_id, session_old_w.document_id = some doc_id ∧
      ((ask_question retrieve_w llm_w 7 "câu hỏi" "basic" session_old_w db_w).2.2).conversations
        = db_w.conversations ++ [⟨7, doc_id, "câu hỏi".trim, "một câu trả lời", "basic"⟩] :=
  (ask_frame_spec retrieve_w llm_w 7 "câu hỏi" "basic" session_old_w db_w).2.2.2.2
    ⟨"một câu trả lời", ["alpha chunk...", "beta chunk..."]⟩ rfl
